import Mathlib

/-!
Verification of the tixte.py HTTP client library.

This file gives a shallow embedding, in Lean, of the parts of the library
needed to settle the specification's claims:

* `tixte/http.py`: the `HTTP.request` retry/backoff/raise loop (lines 164-284),
  the envelope helpers `HTTP._json_or_text` (134-140) and `HTTP._resolve_data`
  (142-162), and the raw asset fetchers `HTTP.get_from_url` (286-298) and
  `HTTP.url_to_file` (558-561).
* `tixte/abc.py`: `IDable.__eq__` (78-82).
* `tixte/domain.py`: `Domain.__eq__` (85-86).
* `tixte/user.py`: `User.__eq__` (80-81).
* `tixte/file.py`: `FileResponse.__eq__` (141-142).
* `tixte/client.py`: the waiter loop of `Client.dispatch` (176-193).

Machine-level conventions: Python exceptions are modelled with `Except` /
explicit outcome constructors; the network is modelled as a script
`Nat → Resp`, giving the response served to each successive attempt; sleeping
is modelled by recording the requested duration.  Durations carried by
rate-limit headers are modelled as naturals (the claims under study only
involve integral values).
-/

namespace Tixte

/-- Typed HTTP errors raised by `HTTP.request` (`tixte/errors.py`).  In Python
`TixteServerError`, `NotFound`, `Forbidden` and `PaymentRequired` are
subclasses of `HTTPException`; here each raise site is recorded by the exact
class it instantiates. -/
inductive HttpErrorKind
  | paymentRequired
  | forbidden
  | notFound
  | tixteServerError
  | httpException
  deriving DecidableEq, Repr

/-- Python-level exceptions that can escape `HTTP.request` without being one of
the typed HTTP errors: the `TixteException` raised by `_resolve_data` on an
envelope contract mismatch, and the `KeyError` raised by a missing rate-limit
header lookup (`headers['x-ratelimit-reset']` / `headers['Retry-After']`). -/
inductive PyErr
  | tixteException
  | keyError
  deriving DecidableEq, Repr

/-- The decoded JSON envelope as `_resolve_data` inspects it
(`{"success": bool, "error": ..., "data": ...}`).  `error` is the payload of
`json.get('error')` (the error object, kept opaque as a string) and `data` the
payload of `json.get('data')`; `none` models an absent key. -/
structure ResponseDict (α : Type) where
  success : Bool
  error : Option String
  data : Option α
  deriving DecidableEq, Repr

/-- The result of `HTTP._json_or_text`: either the decoded JSON envelope or the
raw body text. -/
inductive JsonOrText (α : Type)
  | json (d : ResponseDict α)
  | text (s : String)
  deriving DecidableEq, Repr

/-- The value returned by `HTTP._resolve_data` when it does not raise: the raw
text, the envelope's error object, or the envelope's data payload. -/
inductive ResolvedData (α : Type)
  | text (s : String)
  | error (e : String)
  | data (d : α)
  deriving DecidableEq, Repr

/-- Model of `HTTP._resolve_data` (`tixte/http.py` lines 142-162): a plain
string is returned as is; on a JSON envelope with `success` false the `error`
object is returned, raising `TixteException` when it is missing; with `success`
true the `data` payload is returned, raising `TixteException` when it is
missing. -/
def resolve_data {α : Type} : JsonOrText α → Except PyErr (ResolvedData α)
  | .text s => .ok (.text s)
  | .json d =>
    if d.success = false then
      match d.error with
      | none => .error .tixteException
      | some e => .ok (.error e)
    else
      match d.data with
      | none => .error .tixteException
      | some v => .ok (.data v)

/-- Whether `_resolve_data` returns without raising. -/
def resolveOk {α : Type} (b : JsonOrText α) : Bool :=
  match resolve_data b with
  | .ok _ => true
  | .error _ => false

/-- The body value produced by `HTTP._json_or_text`: either a structured JSON
tree (the result of `to_json`, i.e. `json.loads`, on the body text, kept here
with the text it was parsed from) or the raw text unchanged. -/
inductive ParsedBody
  | jsonTree (raw : String)
  | rawText (s : String)
  deriving DecidableEq, Repr

/-- Model of `HTTP._json_or_text` (`tixte/http.py` lines 134-140).
`textResult` is the outcome of the host call
`await response.text(encoding='utf-8')`: `.ok s` when the raw body bytes decode
to the text `s`, and `.error ()` when decoding raises `UnicodeDecodeError`.
The method compares the `Content-Type` header (`contentType`, `none` when the
header is absent) against the exact string `'application/json; charset=utf-8'`
and applies `to_json` on a match; on a decode failure the exception simply
propagates (there is no handler in the method). -/
def json_or_text (contentType : Option String) (textResult : Except Unit String) :
    Except Unit ParsedBody :=
  match textResult with
  | .error e => .error e
  | .ok text =>
    if contentType = some "application/json; charset=utf-8" then
      .ok (.jsonTree text)
    else
      .ok (.rawText text)

/-- One scripted HTTP response, as seen by one attempt of the `HTTP.request`
loop: the status code, the rate-limit headers (value of
`headers['x-ratelimit-reset']` parsed by `float`, value of
`headers.get('x-ratelimit-remaining')` as a raw string, value of
`headers['Retry-After']` parsed by `float`; `none` models an absent header) and
the body after `_json_or_text`. -/
structure Resp (α : Type) where
  status : Nat
  xRatelimitReset : Option Nat
  xRatelimitRemaining : Option String
  retryAfter : Option Nat
  body : JsonOrText α
  deriving DecidableEq, Repr

/-- Python falsiness of `headers.get('x-ratelimit-remaining')`: an absent
header yields `None` (falsy) and a present one a string, falsy exactly when
empty. -/
def headerFalsy : Option String → Bool
  | none => true
  | some s => s = ""

/-- How `HTTP.request` leaves one loop iteration (lines 208-271): it either
exits the function — returning the resolved data, raising a typed HTTP error
after closing supplied files, or letting a Python-level exception propagate —
or sleeps for the recorded duration and retries. -/
inductive StepOut (α : Type)
  | finishSuccess (v : ResolvedData α)
  | finishHttpError (k : HttpErrorKind)
  | finishPyError (e : PyErr)
  | retry (sleepFor : Nat)
  deriving DecidableEq, Repr

/-- The typed error raised for a non-2xx, non-retried status
(`tixte/http.py` lines 262-271): 402 `PaymentRequired`, 403 `Forbidden`,
404 `NotFound`, any other status `>= 500` `TixteServerError`, and anything else
`HTTPException`. -/
def statusError (s : Nat) : HttpErrorKind :=
  if s = 402 then .paymentRequired
  else if s = 403 then .forbidden
  else if s = 404 then .notFound
  else if 500 ≤ s then .tixteServerError
  else .httpException

/-- Model of one iteration of the `HTTP.request` retry loop
(`tixte/http.py` lines 208-271), for attempt index `tries` served the
response `r`.  In source order:

* line 223: `resolved_data = self._resolve_data(data)` — a `TixteException`
  raised here propagates at once, before any file handling;
* line 225: `if 300 > response.status >= 200` — close the files (when given)
  and return the resolved data;
* lines 232-245: status 429 — read `float(headers['x-ratelimit-reset'])`
  (`KeyError` when absent); when that value is zero and
  `headers.get('x-ratelimit-remaining')` is falsy, replace it with
  `float(headers['Retry-After'])` (`KeyError` when absent); sleep the value and
  retry;
* lines 248-254: status 500, 502 or 504 — sleep `1 + tries * 2` and retry;
* lines 258-271: otherwise close the files (when given) and raise the typed
  error for the status.

The `for file in files: file.close()` blocks guarding the success return
(lines 226-228) and the typed raises (lines 258-260) are accounted for in
`requestAux` below, which knows whether a file list was supplied; note that
the `.finishPyError` exits correspond to raise sites with no file-closing
code in front of them. -/
def step {α : Type} (tries : Nat) (r : Resp α) : StepOut α :=
  match resolve_data r.body with
  | .error e => .finishPyError e
  | .ok resolved =>
    if 200 ≤ r.status ∧ r.status < 300 then
      .finishSuccess resolved
    else if r.status = 429 then
      match r.xRatelimitReset with
      | none => .finishPyError .keyError
      | some reset =>
        if reset = 0 ∧ headerFalsy r.xRatelimitRemaining then
          match r.retryAfter with
          | none => .finishPyError .keyError
          | some ra => .retry ra
        else
          .retry reset
    else if r.status = 500 ∨ r.status = 502 ∨ r.status = 504 then
      .retry (1 + tries * 2)
    else
      .finishHttpError (statusError r.status)

/-- How a whole `HTTP.request` call ends: a returned value, a typed HTTP error,
a propagated Python-level exception, or the `RuntimeError('Unreachable code in
HTTP handling')` fallback. -/
inductive ExecOutcome (α : Type)
  | success (v : ResolvedData α)
  | httpError (k : HttpErrorKind)
  | pyError (e : PyErr)
  | unreachableErr
  deriving DecidableEq, Repr

/-- Whether an outcome is a propagated Python-level exception. -/
def ExecOutcome.isPyErr {α : Type} : ExecOutcome α → Bool
  | .pyError _ => true
  | _ => false

/-- The observable result of one `HTTP.request` call: its outcome, the sleep
durations requested in order, the number of `dispatch('request', response)`
events published, whether the file-closing block ran on the exit path taken,
and the number of attempts (loop iterations) performed. -/
structure ExecResult (α : Type) where
  outcome : ExecOutcome α
  sleeps : List Nat
  requestEvents : Nat
  filesClosed : Bool
  attempts : Nat
  deriving DecidableEq, Repr

/-- Model of `tixte/http.py` lines 273-284, run when the `for tries in
range(5)` loop finishes without exiting: close the files (when given), then
raise `TixteServerError` when the last response's status is `>= 500`,
`HTTPException` otherwise; `lastStatus = none` models `response is None`
(no iteration ran), reaching the `RuntimeError` fallback. -/
def afterLoop {α : Type} (files : Bool) (lastStatus : Option Nat) : ExecResult α :=
  match lastStatus with
  | none => ⟨.unreachableErr, [], 0, files, 0⟩
  | some s =>
    ⟨.httpError (if 500 ≤ s then .tixteServerError else .httpException), [], 0, files, 0⟩

/-- The retry loop of `HTTP.request` (`tixte/http.py` lines 206-284), with
`rem` iterations of `for tries in range(5)` left and `tries` the current
attempt index; `script i` is the response the transport serves to attempt `i`.
Each iteration first publishes one `request` event (line 209), then proceeds as
in `step`. -/
def requestAux {α : Type} (files : Bool) (script : Nat → Resp α) :
    Nat → Nat → ExecResult α
  | 0, tries =>
    afterLoop files (if tries = 0 then none else some (script (tries - 1)).status)
  | rem + 1, tries =>
    match step tries (script tries) with
    | .finishSuccess v => ⟨.success v, [], 1, files, 1⟩
    | .finishHttpError k => ⟨.httpError k, [], 1, files, 1⟩
    | .finishPyError e => ⟨.pyError e, [], 1, false, 1⟩
    | .retry d =>
      let rest := requestAux files script rem (tries + 1)
      ⟨rest.outcome, d :: rest.sleeps, rest.requestEvents + 1, rest.filesClosed,
        rest.attempts + 1⟩

/-- Model of `HTTP.request` (`tixte/http.py` lines 164-284): the retry loop is
entered with 5 attempts available.  The request headers built at lines 176-181
always carry the `Authorization: master_key` credential (see
`requestHeaderNames`). -/
def request {α : Type} (files : Bool) (script : Nat → Resp α) : ExecResult α :=
  requestAux files script 5 0

/-- The header names attached to every `HTTP.request` attempt
(`tixte/http.py` lines 176-181). -/
def requestHeaderNames : List String :=
  ["User-Agent", "Authorization"]

/-- One raw response as seen by `HTTP.get_from_url`: the status and the bytes
returned by `await response.read()`. -/
structure SimpleResp where
  status : Nat
  bodyBytes : List Nat
  deriving DecidableEq, Repr

/-- The observable result of one `HTTP.get_from_url` call, with the same
trace fields as `ExecResult` so the two code paths can be compared:
`requestEvents` counts `dispatch('request', ...)` publications and
`authAttached` records whether the `Authorization` credential header was sent
with the request. -/
structure FetchResult where
  data : Except HttpErrorKind (List Nat)
  attempts : Nat
  requestEvents : Nat
  sleeps : List Nat
  authAttached : Bool
  deriving Repr

/-- Model of `HTTP.get_from_url` (`tixte/http.py` lines 286-298): a single
`self.session.get(url)` call — issued with no `headers` argument, hence
without the `Authorization` header, outside the retry loop, without publishing
a `request` event and without sleeping — whose status is mapped as
200 → bytes, 404 → `NotFound`, 403 → `Forbidden`, otherwise `HTTPException`.
The transport script is taken in the same form as for `request`; only
`script 0` is consulted. -/
def get_from_url (script : Nat → SimpleResp) : FetchResult :=
  let r := script 0
  { data :=
      if r.status = 200 then .ok r.bodyBytes
      else if r.status = 404 then .error .notFound
      else if r.status = 403 then .error .forbidden
      else .error .httpException
    attempts := 1
    requestEvents := 0
    sleeps := []
    authAttached := false }

/-- A `File` object as built by `File.__init__` from an in-memory
`io.BytesIO` buffer (`tixte/file.py` lines 53-82): the buffer is seekable and
readable, so it is adopted with `_owner = False`. -/
structure FileFromBytes where
  bytes : List Nat
  filename : Option String
  owner : Bool
  deriving DecidableEq, Repr

/-- Model of `HTTP.url_to_file` (`tixte/http.py` lines 558-561): fetch the
bytes through `get_from_url` and wrap them as
`File(io.BytesIO(data), filename=filename)`. -/
def url_to_file (script : Nat → SimpleResp) (filename : Option String) :
    Except HttpErrorKind FileFromBytes :=
  ((get_from_url script).data).map (fun b => ⟨b, filename, false⟩)

/-- A Python operand as seen by an `__eq__` that reads `o.id`: `idAttr` is the
value of the `id` attribute when the operand has one, `none` when the attribute
lookup would raise `AttributeError` (e.g. a plain string or `None`). -/
structure PyOperand where
  idAttr : Option String
  deriving DecidableEq, Repr

/-- The outcome of evaluating a Python `__eq__`: a boolean, or a raised
`AttributeError`. -/
inductive PyEqResult
  | ok (b : Bool)
  | attributeError
  deriving DecidableEq, Repr

/-- An ID-carrying `User` snapshot (`tixte/user.py`): only the fields examined
by the claims are kept; `username` stands for the mutable non-ID state of a
fetch snapshot. -/
structure UserM where
  id : String
  username : String
  deriving DecidableEq, Repr

/-- Model of `User.__eq__` (`tixte/user.py` lines 80-81):
`return self.id == o.id`, which reads `o.id` unconditionally — the lookup
raises `AttributeError` when the right operand has no `id` attribute. -/
def userEq (self : UserM) (o : PyOperand) : PyEqResult :=
  match o.idAttr with
  | none => .attributeError
  | some i => .ok (self.id == i)

/-- A `FileResponse` snapshot (`tixte/file.py`): the ID plus `filename`
standing for the remaining per-fetch fields. -/
structure FileResponseM where
  id : String
  filename : String
  deriving DecidableEq, Repr

/-- Model of `FileResponse.__eq__` (`tixte/file.py` lines 141-142):
`return self.id == o.id`, identical in shape to `User.__eq__`. -/
def fileResponseEq (self : FileResponseM) (o : PyOperand) : PyEqResult :=
  match o.idAttr with
  | none => .attributeError
  | some i => .ok (self.id == i)

/-- An `IDable` (`tixte/abc.py` lines 74-76): the ID. -/
structure IDableM where
  id : String
  deriving DecidableEq, Repr

/-- Model of `IDable.__eq__` (`tixte/abc.py` lines 78-82) for two operands of
the same declared kind: for such a pair the `isinstance(__other, self.type_of)`
guard passes, and the comparison reduces to `self.id == __other.id`. -/
def idableEqSameKind (a b : IDableM) : Bool :=
  a.id == b.id

/-- A `Domain` snapshot (`tixte/domain.py` lines 78-83): its url (the
identifying name under which the state cache stores it), the upload count, and
the owner's user ID. -/
structure DomainM where
  url : String
  uploads : Nat
  ownerId : String
  deriving DecidableEq, Repr

/-- Model of `Domain.__eq__` (`tixte/domain.py` lines 85-86):
`self.url == __o.url and self.uploads == __o.uploads and
self.owner_id == __o.owner_id`. -/
def domainEq (a b : DomainM) : Bool :=
  a.url == b.url && a.uploads == b.uploads && a.ownerId == b.ownerId

/-- One pending waiter of the event registry (`Client._waiters`), at the
moment a given `dispatch(event, *args)` call runs: `fid` is the identity of
the `asyncio.Future` (futures created by `wait_for` are distinct objects, so
tuple equality in `waiters.remove((future, condition))` is identity on the
future), `done` is `future.done()` (true for a future already resolved or
cancelled, e.g. by a `wait_for` timeout), and `condResult` is the value of
`condition(*args)` on the dispatched arguments — `none` when the registered
`condition` is `None`. -/
structure WaiterM where
  fid : Nat
  done : Bool
  condResult : Option Bool
  deriving DecidableEq, Repr

/-- Python's `waiters.remove((future, condition))`: remove the first list
element equal to the given tuple, here identified by the future's identity. -/
def removeWaiter (fid : Nat) (l : List WaiterM) : List WaiterM :=
  l.eraseP (fun w => w.fid == fid)

/-- Model of the waiter loop of `Client.dispatch`
(`tixte/client.py` lines 176-193), which runs
`for future, condition in waiters:` while calling `waiters.remove(...)` on the
very list being iterated.  CPython list iteration works by index: after the
element at index `i` is yielded the iterator's index is `i + 1`, so removing
the current element shifts the remainder left and the element that stood just
after it is never examined.  The loop body, in source order: evaluate the
condition (`result` stays `None` — falsy — when `condition is None`); `continue`
when `result` is falsy; `continue` when `future.done()`; otherwise
`future.set_result(*args)` and `waiters.remove((future, condition))`.
Returns the final waiter list and the identities of the futures resolved, in
order.  Recursion is driven by an explicit step budget `fuel`: one unit per
loop step; since the index grows by one per step and the list never grows,
any fuel of at least `l.length - i` runs the iteration to its end (proved
fuel-independent below). -/
def dispatchWaiters (fuel : Nat) (l : List WaiterM) (i : Nat) :
    List WaiterM × List Nat :=
  match fuel with
  | 0 => (l, [])
  | fuel + 1 =>
    if h : i < l.length then
      let w := l[i]
      let result := match w.condResult with
        | none => false
        | some b => b
      if result = false then
        dispatchWaiters fuel l (i + 1)
      else if w.done then
        dispatchWaiters fuel l (i + 1)
      else
        let rest := dispatchWaiters fuel (removeWaiter w.fid l) (i + 1)
        (rest.1, w.fid :: rest.2)
    else
      (l, [])

/-- The waiter loop of `Client.dispatch` applied to the current waiter list:
iteration starts at index 0 with enough fuel for every reachable step (the
index grows by one per step and the list never grows, so `l.length` steps
always run the iteration to its end; `dispatchWaiters_fuel_irrelevant` below
shows any larger fuel computes the same result). -/
def dispatchOnWaiters (l : List WaiterM) : List WaiterM × List Nat :=
  dispatchWaiters l.length l 0

/-- Whether attempt `tries`, served the response `r`, ends in a `continue`
statement of the `HTTP.request` loop (line 245 or 254) — i.e. the attempt
completes without returning and without raising, so the loop moves on to the
next attempt. -/
def attemptContinues {α : Type} (tries : Nat) (r : Resp α) : Bool :=
  match step tries r with
  | .retry _ => true
  | _ => false

/-- A response fixture with the given status and a plain-text body (the body
resolves to raw text, as for an HTML error page). -/
def textResp (s : Nat) : Resp Nat :=
  ⟨s, none, none, none, .text "body"⟩

/-- A 200 fixture carrying a well-formed success envelope
`{"success": true, "data": 42}`. -/
def okResp : Resp Nat :=
  ⟨200, none, none, none, .json ⟨true, none, some 42⟩⟩

/-- A 200 fixture whose envelope violates the API contract:
`{"success": false}` with no `error` object, making `_resolve_data` raise
`TixteException`. -/
def badEnvelopeResp : Resp Nat :=
  ⟨200, none, none, none, .json ⟨false, none, none⟩⟩

/-- A 429 fixture with the given rate-limit headers and a plain-text body. -/
def rateLimitedResp (reset : Option Nat) (remaining : Option String)
    (ra : Option Nat) : Resp Nat :=
  ⟨429, reset, remaining, ra, .text "body"⟩

/-! ### Helper lemmas about the request loop -/

theorem requestAux_attempts_le {α : Type} (files : Bool) (script : Nat → Resp α) :
    ∀ rem tries, (requestAux files script rem tries).attempts ≤ rem := by
  intro rem
  induction rem with
  | zero =>
    intro tries
    simp only [requestAux, afterLoop]
    split <;> simp
  | succ rem ih =>
    intro tries
    have := ih (tries + 1)
    cases hs : step tries (script tries) <;> simp only [requestAux, hs] <;> simp
    all_goals omega

theorem requestAux_attempts_pos {α : Type} (files : Bool) (script : Nat → Resp α)
    (rem tries : Nat) : 1 ≤ (requestAux files script (rem + 1) tries).attempts := by
  cases hs : step tries (script tries) <;> simp only [requestAux, hs] <;> simp

theorem requestAux_continue_exhausts {α : Type} (files : Bool) (script : Nat → Resp α) :
    ∀ rem tries, 0 < tries + rem →
      (∀ i, tries ≤ i → i < tries + rem → attemptContinues i (script i) = true) →
      (requestAux files script rem tries).outcome =
        .httpError (if 500 ≤ (script (tries + rem - 1)).status then .tixteServerError
          else .httpException) ∧
      (requestAux files script rem tries).attempts = rem := by
  intro rem
  induction rem with
  | zero =>
    intro tries hpos _
    have ht : ¬(tries = 0) := by omega
    simp [requestAux, afterLoop, if_neg ht]
  | succ rem ih =>
    intro tries hpos hcont
    have hc := hcont tries le_rfl (by omega)
    unfold attemptContinues at hc
    cases hs : step tries (script tries) <;> rw [hs] at hc <;> try simp at hc
    case retry d =>
      simp only [requestAux, hs]
      have ih' := ih (tries + 1) (by omega) (fun i h1 h2 => hcont i (by omega) (by omega))
      have hidx : tries + 1 + rem - 1 = tries + (rem + 1) - 1 := by omega
      rw [hidx] at ih'
      refine ⟨by simpa using ih'.1, by simp; omega⟩

theorem requestAux_closes_files {α : Type} (script : Nat → Resp α) :
    ∀ rem tries, (requestAux true script rem tries).outcome.isPyErr = false →
      (requestAux true script rem tries).filesClosed = true := by
  intro rem
  induction rem with
  | zero =>
    intro tries _
    simp only [requestAux, afterLoop]
    split <;> rfl
  | succ rem ih =>
    intro tries h
    cases hs : step tries (script tries) <;>
      simp only [requestAux, hs] at h ⊢
    · simp [ExecOutcome.isPyErr] at h
    · exact ih (tries + 1) h

theorem resolveOk_elim {α : Type} {b : JsonOrText α} (h : resolveOk b = true) :
    ∃ v, resolve_data b = .ok v := by
  unfold resolveOk at h
  cases hres : resolve_data b with
  | error e => rw [hres] at h; simp at h
  | ok v => exact ⟨v, rfl⟩

/-! ### Claim theorems -/

/-- C1 counterexample: with a file part supplied, a 200 response whose
envelope violates the contract (`{"success": false}` with no error object)
makes `_resolve_data` raise before any close block runs, so the
`TixteException` propagates with the file part never released; likewise a 429
response with no `x-ratelimit-reset` header raises `KeyError` without
releasing the file part. -/
theorem request_file_leak_on_decode_or_header_error :
    ((request true (fun _ => badEnvelopeResp)).outcome = .pyError .tixteException ∧
      (request true (fun _ => badEnvelopeResp)).filesClosed = false) ∧
    ((request true (fun _ => rateLimitedResp none none none)).outcome =
        .pyError .keyError ∧
      (request true (fun _ => rateLimitedResp none none none)).filesClosed = false) := by
  decide

/-- C1 amended: when `HTTP.request` is called with file parts, every exit
except a propagating Python-level exception releases them — they are closed on
2xx success, on every typed HTTP-status raise, and on retry exhaustion; but an
exception raised while decoding the response envelope or while reading the
rate-limit headers propagates without releasing the file parts. -/
theorem request_closes_files_unless_py_error {α : Type} (script : Nat → Resp α)
    (h : (request true script).outcome.isPyErr = false) :
    (request true script).filesClosed = true :=
  requestAux_closes_files script 5 0 h

/-- Witness for `request_closes_files_unless_py_error`: a plain success with a
file part supplied does close it. -/
theorem request_closes_files_witness :
    (request true (fun _ => okResp)).outcome.isPyErr = false ∧
    (request true (fun _ => okResp)).filesClosed = true :=
  ⟨by decide, request_closes_files_unless_py_error (fun _ => okResp) (by decide)⟩

/-- C2 counterexample: a first-attempt 503 makes the Executor raise
`TixteServerError` — the server-error kind, not the generic `HTTPException`
kind the claim names — after exactly one attempt. -/
theorem request_503_raises_server_error_kind :
    (request false (fun _ => textResp 503)).outcome = .httpError .tixteServerError ∧
    (request false (fun _ => textResp 503)).attempts = 1 ∧
    HttpErrorKind.tixteServerError ≠ HttpErrorKind.httpException := by
  decide

/-- C2 amended: a 503 response is indeed not retried — the Executor raises
immediately on the first attempt with no sleep, in contrast to 500, which is
retried — but the error raised is the server-error kind `TixteServerError`
(in Python a subclass of `HTTPException`), because the immediate-raise branch
classifies every status ≥ 500 as a server error. -/
theorem request_503_immediate_no_retry {α : Type} (files : Bool)
    (script scr' : Nat → Resp α)
    (h503 : (script 0).status = 503) (hok : resolveOk (script 0).body = true)
    (h500 : (scr' 0).status = 500) (hok' : resolveOk (scr' 0).body = true) :
    ((request files script).outcome = .httpError .tixteServerError ∧
      (request files script).attempts = 1 ∧
      (request files script).sleeps = []) ∧
    2 ≤ (request files scr').attempts := by
  obtain ⟨v, hres⟩ := resolveOk_elim hok
  obtain ⟨v', hres'⟩ := resolveOk_elim hok'
  constructor
  · have hstep : step 0 (script 0) = .finishHttpError .tixteServerError := by
      simp [step, hres, h503, statusError]
    simp [request, requestAux, hstep]
  · have hstep : step 0 (scr' 0) = .retry (1 + 0 * 2) := by
      simp [step, hres', h500]
    have hpos : 1 ≤ (requestAux files scr' 4 1).attempts :=
      requestAux_attempts_pos files scr' 3 1
    show 2 ≤ (requestAux files scr' (4 + 1) 0).attempts
    rw [requestAux, hstep]
    simp
    omega

/-- Witness for `request_503_immediate_no_retry` on constant 503 and constant
500 scripts. -/
theorem request_503_immediate_witness :
    ((request false (fun _ => textResp 503)).sleeps = []) ∧
    2 ≤ (request false (fun _ => textResp 500)).attempts := by
  have h := request_503_immediate_no_retry false (fun _ => textResp 503)
    (fun _ => textResp 500) rfl rfl rfl rfl
  exact ⟨h.1.2.2, h.2⟩

/-- C3 counterexample: on a 429 with `x-ratelimit-reset: 0`, `Retry-After: 7`
and the `x-ratelimit-remaining` header present with value `"1"`, the fallback
the claim asserts for every zero reset value does not happen: the Executor
sleeps 0 seconds, not the Retry-After value 7. -/
theorem rate_limit_sleeps_zero_with_remaining_present :
    (request false (fun i => if i = 0 then rateLimitedResp (some 0) (some "1") (some 7)
        else okResp)).sleeps = [0] ∧
    (0 : Nat) ≠ 7 := by
  decide

/-- C3 amended: on a 429 first response carrying both numeric headers, the
duration slept is the `x-ratelimit-reset` value, replaced by the `Retry-After`
value exactly when the reset value is zero AND the `x-ratelimit-remaining`
header is absent (or empty, i.e. falsy); in particular, with reset 0 and no
remaining header, the `Retry-After` value is slept, not zero. -/
theorem rate_limit_sleep_rule {α : Type} (files : Bool) (script : Nat → Resp α)
    (reset ra : Nat)
    (h429 : (script 0).status = 429) (hok : resolveOk (script 0).body = true)
    (hreset : (script 0).xRatelimitReset = some reset)
    (hra : (script 0).retryAfter = some ra) :
    (request files script).sleeps.head? =
      some (if reset = 0 ∧ headerFalsy (script 0).xRatelimitRemaining then ra
        else reset) := by
  obtain ⟨v, hres⟩ := resolveOk_elim hok
  by_cases hz : reset = 0 ∧ headerFalsy (script 0).xRatelimitRemaining
  · have hstep : step 0 (script 0) = .retry ra := by
      simp [step, hres, h429, hreset, hra, hz]
    simp [request, requestAux, hstep, hz]
  · have hstep : step 0 (script 0) = .retry reset := by
      simp [step, hres, h429, hreset, hra, hz]
    simp [request, requestAux, hstep, hz]

/-- Witness for `rate_limit_sleep_rule`: with reset 0, no remaining header and
`Retry-After: 7`, the Executor sleeps 7 seconds. -/
theorem rate_limit_sleep_rule_witness :
    (request false (fun i => if i = 0 then rateLimitedResp (some 0) none (some 7)
        else okResp)).sleeps.head? = some 7 := by
  have h := rate_limit_sleep_rule false
    (fun i => if i = 0 then rateLimitedResp (some 0) none (some 7) else okResp)
    0 7 rfl rfl rfl rfl
  simpa using h

/-- C4: the Executor's retry loop makes at most 5 attempts on every input, and
when all 5 attempts complete without exiting (each ends in the loop's
`continue`, i.e. no 2xx was seen), the error finally raised is typed by the
last observed status: `TixteServerError` when it is at least 500,
`HTTPException` (the generic kind) otherwise. -/
theorem request_five_attempt_bound {α : Type} (files : Bool) (script : Nat → Resp α) :
    (request files script).attempts ≤ 5 ∧
    ((∀ i, i < 5 → attemptContinues i (script i) = true) →
      (request files script).outcome =
        .httpError (if 500 ≤ (script 4).status then .tixteServerError
          else .httpException)) := by
  refine ⟨requestAux_attempts_le files script 5 0, fun h => ?_⟩
  have hx := requestAux_continue_exhausts files script 5 0 (by omega)
    (fun i h1 h2 => h i (by omega))
  simpa using hx.1

/-- Witness for `request_five_attempt_bound` at the constant-500 script: all
five attempts are consumed and the server-error kind is raised. -/
theorem request_five_attempt_bound_witness :
    (request false (fun _ => textResp 500)).attempts ≤ 5 ∧
    (request false (fun _ => textResp 500)).outcome = .httpError .tixteServerError := by
  have h := request_five_attempt_bound false (fun _ => textResp 500)
  exact ⟨h.1, (h.2 (fun i _ => rfl)).trans rfl⟩

/-- C5: for four 500 responses followed by a 200 with a well-formed envelope,
`execute` succeeds with the envelope's data, the backoff slept before each
retry is `1 + attempt_index*2` seconds (`[1, 3, 5, 7]`), and the total elapsed
backoff before the final attempt is 16 seconds. -/
theorem request_four_500_then_success_backoff :
    (request false (fun i => if i < 4 then textResp 500 else okResp)).outcome =
      .success (.data 42) ∧
    (request false (fun i => if i < 4 then textResp 500 else okResp)).sleeps =
      [1, 3, 5, 7] ∧
    ((request false (fun i => if i < 4 then textResp 500 else okResp)).sleeps).sum
      = 16 := by
  decide

/-- C6 counterexample: a body served with `Content-Type: application/json`
(a Content-Type that indicates JSON, but not the exact string
`application/json; charset=utf-8` the code compares against) is returned as
raw text, not decoded into a JSON tree; and when decoding the body as text
fails, the decode error propagates — no raw bytes are returned by this
method. -/
theorem json_or_text_inexact_content_type_and_no_bytes :
    json_or_text (some "application/json") (.ok "x") = .ok (.rawText "x") ∧
    ParsedBody.rawText "x" ≠ ParsedBody.jsonTree "x" ∧
    json_or_text (some "application/json; charset=utf-8") (.error ()) = .error () := by
  refine ⟨rfl, by decide, rfl⟩

/-- C6 amended: the envelope parser decodes the body into a structured JSON
tree exactly when the Content-Type header is the exact string
`application/json; charset=utf-8`; any other Content-Type yields the raw text;
and when decoding the body as text fails, the decoding error propagates out of
the parser (raw bytes are produced only by the separate `get_from_url` asset
path, not by this method). -/
theorem json_or_text_exact_content_type (ct : Option String) (t : String) :
    json_or_text ct (.ok t) =
      .ok (if ct = some "application/json; charset=utf-8" then .jsonTree t
        else .rawText t) ∧
    json_or_text ct (.error ()) = .error () := by
  constructor
  · by_cases h : ct = some "application/json; charset=utf-8" <;>
      simp [json_or_text, h]
  · rfl

/-- C7 counterexample: two `Domain` snapshots with the same identity (equal
url and equal owner ID) but different upload counts compare unequal, because
`Domain.__eq__` compares the upload count as well — so equality of domains is
not determined solely by identity. -/
theorem domain_eq_not_by_id_alone :
    domainEq ⟨"ex.tixte.co", 1, "owner"⟩ ⟨"ex.tixte.co", 2, "owner"⟩ = false ∧
    (DomainM.mk "ex.tixte.co" 1 "owner").url = (DomainM.mk "ex.tixte.co" 2 "owner").url ∧
    (DomainM.mk "ex.tixte.co" 1 "owner").ownerId
      = (DomainM.mk "ex.tixte.co" 2 "owner").ownerId := by
  decide

/-- C7 amended: equality is determined solely by ID for the ID-bearing classes
that define it that way — `User`, `FileResponse`, and `IDable` objects
initialized through `IDable.__init__` compared with an operand of their
declared kind: two such objects with equal IDs compare equal even when their
other field snapshots differ — but `Domain` is an exception: its equality
compares url, upload count and owner ID, so two snapshots of the same domain
with different upload counts compare unequal. -/
theorem id_equality_discipline :
    (∀ a b : UserM, a.id = b.id → userEq a ⟨some b.id⟩ = .ok true) ∧
    (∀ a b : FileResponseM, a.id = b.id → fileResponseEq a ⟨some b.id⟩ = .ok true) ∧
    (∀ a b : IDableM, idableEqSameKind a b = (a.id == b.id)) ∧
    (∀ a b : DomainM, domainEq a b = true ↔
      a.url = b.url ∧ a.uploads = b.uploads ∧ a.ownerId = b.ownerId) := by
  refine ⟨?_, ?_, ?_, ?_⟩
  · intro a b h
    simp [userEq, h]
  · intro a b h
    simp [fileResponseEq, h]
  · intro a b
    rfl
  · intro a b
    simp [domainEq, and_assoc]

/-- Witness for `id_equality_discipline`: two user snapshots with the same ID
and different usernames compare equal. -/
theorem id_equality_discipline_witness :
    userEq ⟨"abc", "alice"⟩ ⟨some (UserM.mk "abc" "bob").id⟩ = .ok true :=
  id_equality_discipline.1 ⟨"abc", "alice"⟩ ⟨"abc", "bob"⟩ rfl

/-- C9 counterexample: served the same all-500 transport script, the API
request path makes 5 attempts with 5 published request events, while the
`urlToFile` fetch path (`get_from_url`) gives up after a single attempt with
no request event and raises the generic `HTTPException` — it does not go
through the Executor's retry/backoff/event path. -/
theorem get_from_url_not_on_retry_path :
    (get_from_url (fun _ => ⟨500, []⟩)).attempts = 1 ∧
    (get_from_url (fun _ => ⟨500, []⟩)).requestEvents = 0 ∧
    (get_from_url (fun _ => ⟨500, []⟩)).data = .error .httpException ∧
    (request false (fun _ => textResp 500)).attempts = 5 ∧
    (request false (fun _ => textResp 500)).requestEvents = 5 := by
  refine ⟨rfl, rfl, rfl, by decide, by decide⟩

/-- C9 amended: the `urlToFile` secondary GET carries no API-credential
`Authorization` header (unlike the Executor's requests, whose header set
always includes it), but it is a single-shot request with its own status
mapping — 200 → bytes wrapped as a non-owned file part, 404 → `NotFound`,
403 → `Forbidden`, anything else → `HTTPException` — with no retry, no
backoff sleep and no request-event publication. -/
theorem url_to_file_single_shot_no_auth (script : Nat → SimpleResp)
    (fn : Option String) :
    (get_from_url script).authAttached = false ∧
    (get_from_url script).attempts = 1 ∧
    (get_from_url script).requestEvents = 0 ∧
    (get_from_url script).sleeps = [] ∧
    url_to_file script fn =
      (if (script 0).status = 200 then .ok ⟨(script 0).bodyBytes, fn, false⟩
        else if (script 0).status = 404 then .error .notFound
        else if (script 0).status = 403 then .error .forbidden
        else .error .httpException) ∧
    "Authorization" ∈ requestHeaderNames := by
  refine ⟨rfl, rfl, rfl, rfl, ?_, by decide⟩
  simp only [url_to_file, get_from_url]
  by_cases h1 : (script 0).status = 200 <;>
    by_cases h2 : (script 0).status = 404 <;>
    by_cases h3 : (script 0).status = 403 <;>
    simp [h1, h2, h3, Except.map]

/-- C10: User and FileResponse equality unconditionally reads `o.id` from the
right operand, so comparing against any operand with no `id` attribute (a
plain string, `None`, ...) raises `AttributeError` instead of returning an
unequal result. -/
theorem eq_on_idless_operand_raises (u : UserM) (fr : FileResponseM)
    (o : PyOperand) (h : o.idAttr = none) :
    userEq u o = .attributeError ∧ fileResponseEq fr o = .attributeError := by
  constructor <;> simp [userEq, fileResponseEq, h]

/-- Witness for `eq_on_idless_operand_raises` at a concrete user, file
response and id-less operand. -/
theorem eq_on_idless_operand_raises_witness :
    userEq ⟨"u1", "alice"⟩ ⟨none⟩ = .attributeError ∧
    fileResponseEq ⟨"f1", "pic.png"⟩ ⟨none⟩ = .attributeError :=
  eq_on_idless_operand_raises ⟨"u1", "alice"⟩ ⟨"f1", "pic.png"⟩ ⟨none⟩ rfl

/-! ### Lemmas about the waiter loop -/

theorem dispatchWaiters_succ_eq (fuel : Nat) (l : List WaiterM) (i : Nat) :
    dispatchWaiters (fuel + 1) l i =
      if h : i < l.length then
        if (match (l[i]).condResult with | none => false | some b => b) = false then
          dispatchWaiters fuel l (i + 1)
        else if (l[i]).done then
          dispatchWaiters fuel l (i + 1)
        else
          ((dispatchWaiters fuel (removeWaiter (l[i]).fid l) (i + 1)).1,
            (l[i]).fid :: (dispatchWaiters fuel (removeWaiter (l[i]).fid l) (i + 1)).2)
      else (l, []) := rfl

theorem dispatchWaiters_fuel_succ :
    ∀ (n : Nat) (l : List WaiterM) (i : Nat), l.length - i ≤ n →
      dispatchWaiters (n + 1) l i = dispatchWaiters n l i := by
  intro n
  induction n with
  | zero =>
    intro l i h
    have hi : ¬(i < l.length) := by omega
    rw [dispatchWaiters_succ_eq, dif_neg hi]
    rfl
  | succ n ih =>
    intro l i h
    rw [dispatchWaiters_succ_eq (n + 1) l i]
    conv_rhs => rw [dispatchWaiters_succ_eq n l i]
    by_cases hi : i < l.length
    · rw [dif_pos hi, dif_pos hi]
      have h1 : l.length - (i + 1) ≤ n := by omega
      have h2 : (removeWaiter (l[i]).fid l).length - (i + 1) ≤ n := by
        have hlen := (List.eraseP_sublist (p := fun w => w.fid == (l[i]).fid) l).length_le
        simp only [removeWaiter]
        omega
      rw [ih l (i + 1) h1, ih _ (i + 1) h2]
    · rw [dif_neg hi, dif_neg hi]

theorem dispatchWaiters_final_sublist :
    ∀ (fuel : Nat) (l : List WaiterM) (i : Nat),
      ((dispatchWaiters fuel l i).1).Sublist l := by
  intro fuel
  induction fuel with
  | zero => intro l i; exact List.Sublist.refl l
  | succ fuel ih =>
    intro l i
    rw [dispatchWaiters_succ_eq]
    split
    · split
      · exact ih l (i + 1)
      · split
        · exact ih l (i + 1)
        · exact (ih _ (i + 1)).trans (List.eraseP_sublist l)
    · exact List.Sublist.refl l

theorem dispatchWaiters_resolved_spec :
    ∀ (fuel : Nat) (l : List WaiterM) (i : Nat),
      ∀ f ∈ (dispatchWaiters fuel l i).2,
        ∃ w, w ∈ l ∧ w.fid = f ∧ w.condResult = some true ∧ w.done = false := by
  intro fuel
  induction fuel with
  | zero => intro l i f hf; simp [dispatchWaiters] at hf
  | succ fuel ih =>
    intro l i f hf
    rw [dispatchWaiters_succ_eq] at hf
    split at hf
    case isFalse => simp at hf
    case isTrue h =>
      split at hf
      case isTrue hres => exact ih l (i + 1) f hf
      case isFalse hres =>
        split at hf
        case isTrue hdone => exact ih l (i + 1) f hf
        case isFalse hdone =>
          have hcond : (l[i]).condResult = some true := by
            rcases hc : (l[i]).condResult with _ | b
            · rw [hc] at hres; simp at hres
            · rw [hc] at hres
              simp only [Bool.not_eq_false] at hres
              rw [hres]
          rcases List.mem_cons.mp hf with rfl | hf'
          · exact ⟨l[i], List.getElem_mem h, rfl, hcond,
              Bool.not_eq_true _ ▸ hdone⟩
          · obtain ⟨w, hw, hrest⟩ := ih _ (i + 1) f hf'
            exact ⟨w, List.mem_of_mem_eraseP hw, hrest⟩

theorem fid_not_mem_removeWaiter :
    ∀ (l : List WaiterM) (f : Nat), ((l.map WaiterM.fid).Nodup) →
      f ∉ ((removeWaiter f l).map WaiterM.fid) := by
  intro l
  induction l with
  | nil => intro f _; simp [removeWaiter]
  | cons w ws ih =>
    intro f hnd
    simp only [List.map_cons, List.nodup_cons] at hnd
    simp only [removeWaiter, List.eraseP_cons]
    cases hw : (w.fid == f)
    · simp only [cond_false, List.map_cons]
      intro hmem
      rcases List.mem_cons.mp hmem with heq | hmem'
      · rw [heq] at hw; simp at hw
      · exact ih f hnd.2 hmem'
    · simp only [cond_true]
      have hwf : w.fid = f := by simpa using hw
      intro hmem
      exact hnd.1 (hwf ▸ hmem)

theorem dispatchWaiters_nodup_disjoint :
    ∀ (fuel : Nat) (l : List WaiterM) (i : Nat), ((l.map WaiterM.fid).Nodup) →
      ((dispatchWaiters fuel l i).2.Nodup ∧
        ∀ f ∈ (dispatchWaiters fuel l i).2,
          f ∉ ((dispatchWaiters fuel l i).1.map WaiterM.fid)) := by
  intro fuel
  induction fuel with
  | zero => intro l i _; simp [dispatchWaiters]
  | succ fuel ih =>
    intro l i hnd
    rw [dispatchWaiters_succ_eq]
    split
    case isFalse => simp
    case isTrue h =>
      split
      case isTrue hres => exact ih l (i + 1) hnd
      case isFalse hres =>
        split
        case isTrue hdone => exact ih l (i + 1) hnd
        case isFalse hdone =>
          have hnd' : (((removeWaiter (l[i]).fid l).map WaiterM.fid).Nodup) :=
            hnd.sublist ((List.eraseP_sublist l).map WaiterM.fid)
          have hrec := ih (removeWaiter (l[i]).fid l) (i + 1) hnd'
          have hnotin := fid_not_mem_removeWaiter l (l[i]).fid hnd
          constructor
          · refine List.nodup_cons.mpr ⟨?_, hrec.1⟩
            intro hmem
            obtain ⟨w, hw, hfid, -, -⟩ :=
              dispatchWaiters_resolved_spec fuel _ (i + 1) _ hmem
            have hm : w.fid ∈ ((removeWaiter (l[i]).fid l).map WaiterM.fid) :=
              List.mem_map_of_mem WaiterM.fid hw
            rw [hfid] at hm
            exact hnotin hm
          · intro f hf
            rcases List.mem_cons.mp hf with rfl | hf'
            · intro hmem
              exact hnotin
                (((dispatchWaiters_final_sublist fuel _ (i + 1)).map
                  WaiterM.fid).subset hmem)
            · exact hrec.2 f hf'

theorem dispatchWaiters_keeps_done :
    ∀ (fuel : Nat) (l : List WaiterM) (i : Nat), ((l.map WaiterM.fid).Nodup) →
      ∀ w, w ∈ l → w.done = true → w ∈ (dispatchWaiters fuel l i).1 := by
  intro fuel
  induction fuel with
  | zero => intro l i _ w hw _; simpa [dispatchWaiters] using hw
  | succ fuel ih =>
    intro l i hnd w hw hdw
    rw [dispatchWaiters_succ_eq]
    split
    case isFalse => exact hw
    case isTrue h =>
      split
      case isTrue hres => exact ih l (i + 1) hnd w hw hdw
      case isFalse hres =>
        split
        case isTrue hdone => exact ih l (i + 1) hnd w hw hdw
        case isFalse hdone =>
          have hnd' : (((removeWaiter (l[i]).fid l).map WaiterM.fid).Nodup) :=
            hnd.sublist ((List.eraseP_sublist l).map WaiterM.fid)
          have hne : ¬((w.fid == (l[i]).fid) = true) := by
            simp only [beq_iff_eq]
            intro hfe
            have := List.inj_on_of_nodup_map hnd hw (List.getElem_mem h) hfe
            rw [this] at hdw
            exact hdone (by simpa using hdw)
          have hw' : w ∈ List.eraseP (fun x => x.fid == (l[i]).fid) l :=
            (List.mem_eraseP_of_neg (by exact hne)).mpr hw
          exact ih _ (i + 1) hnd' w hw' hdw

/-- C8 counterexample: dispatching over three pending waiters whose predicates
all match resolves two of them in a single dispatch (identities 0 and 2), not
exactly one — removal during iteration skips the middle waiter, which stays
registered although it matched; and a waiter whose future is already done
(e.g. cancelled by a `wait_for` timeout) is never removed from the list. -/
theorem dispatch_resolves_two_waiters_and_keeps_cancelled :
    (dispatchOnWaiters
        [⟨0, false, some true⟩, ⟨1, false, some true⟩, ⟨2, false, some true⟩]).2
      = [0, 2] ∧
    (dispatchOnWaiters
        [⟨0, false, some true⟩, ⟨1, false, some true⟩, ⟨2, false, some true⟩]).1
      = [⟨1, false, some true⟩] ∧
    dispatchOnWaiters [⟨7, true, some true⟩] = ([⟨7, true, some true⟩], []) := by
  decide

/-- C8 amended: on one dispatch over waiters with distinct futures, every
resolved waiter was pending with a satisfied predicate, each waiter resolves
at most once, and every resolved waiter is removed from the list — but the
loop does not stop after the first match (several waiters can resolve on one
dispatch, and removal during iteration can skip a matching waiter), and a
waiter whose future is already done (e.g. cancelled by timeout) is skipped and
stays registered. -/
theorem dispatch_waiter_lifecycle (l : List WaiterM)
    (hnd : ((l.map WaiterM.fid).Nodup)) :
    (dispatchOnWaiters l).2.Nodup ∧
    (∀ f ∈ (dispatchOnWaiters l).2,
      ∃ w, w ∈ l ∧ w.fid = f ∧ w.condResult = some true ∧ w.done = false) ∧
    (∀ f ∈ (dispatchOnWaiters l).2,
      f ∉ ((dispatchOnWaiters l).1.map WaiterM.fid)) ∧
    (∀ w, w ∈ l → w.done = true → w ∈ (dispatchOnWaiters l).1) := by
  have h := dispatchWaiters_nodup_disjoint l.length l 0 hnd
  exact ⟨h.1, dispatchWaiters_resolved_spec l.length l 0, h.2,
    dispatchWaiters_keeps_done l.length l 0 hnd⟩

/-- Witness for `dispatch_waiter_lifecycle` at a concrete two-waiter list. -/
theorem dispatch_waiter_lifecycle_witness :
    (dispatchOnWaiters [⟨5, false, some true⟩, ⟨6, true, some true⟩]).2.Nodup ∧
    WaiterM.mk 6 true (some true)
      ∈ (dispatchOnWaiters [⟨5, false, some true⟩, ⟨6, true, some true⟩]).1 := by
  have h := dispatch_waiter_lifecycle
    [⟨5, false, some true⟩, ⟨6, true, some true⟩] (by decide)
  exact ⟨h.1, h.2.2.2 _ (by decide) rfl⟩

end Tixte
